import Mathlib

/-!
Shallow embedding of `stepic_utils/quiz.py`: a contract-enforcement harness
for quiz modules exporting `generate`, `solve` and `check`.

Python values crossing the harness boundary are modelled by the inductive
`PyVal`; Python's two relevant numeric towers (`numbers.Real` covers ints,
floats and bools) are collapsed into a rational constructor plus `bool`.
Fallible computations live in `Except PyExc`: `fail_with_message` raises a
`SystemExit` (printed message + non-zero process exit), user code may raise
arbitrary exceptions, and the unittest assertion channel raises
`AssertionError`.
-/

set_option autoImplicit false

/-- Python values exchanged between the harness and user code. -/
inductive PyVal where
  | none
  | bool (b : Bool)
  | num (q : ℚ)
  | str (s : String)
  | bytes (s : String)
  | tuple (xs : List PyVal)
  | list (xs : List PyVal)
  | dict (entries : List (PyVal × PyVal))

/-- Exceptions: `systemExit` is raised by `fail_with_message` (the message is
printed to stderr and the process exits with status -1), `assertionError` by
the unittest assertion methods, and the remaining constructors model faults
raised inside user code or by unpacking. -/
inductive PyExc where
  | systemExit (msg : String)
  | assertionError (msg : String)
  | typeError
  | valueError
  | userError (tag : String)

mutual

/-- Rendering of a value into an error message, standing in for Python's
`str()` as used by `"...".format(value)` in the source's messages. -/
def pyRepr : PyVal → String
  | .none => "None"
  | .bool b => if b then "True" else "False"
  | .num q => toString q
  | .str s => s
  | .bytes s => "b" ++ s
  | .tuple xs => "(" ++ pyReprJoin xs ++ ")"
  | .list xs => "[" ++ pyReprJoin xs ++ "]"
  | .dict xs => "\x7b" ++ pyReprEntries xs ++ "\x7d"

def pyReprJoin : List PyVal → String
  | [] => ""
  | [x] => pyRepr x
  | x :: xs => pyRepr x ++ ", " ++ pyReprJoin xs

def pyReprEntries : List (PyVal × PyVal) → String
  | [] => ""
  | [(k, v)] => pyRepr k ++ ": " ++ pyRepr v
  | (k, v) :: xs => pyRepr k ++ ": " ++ pyRepr v ++ ", " ++ pyReprEntries xs

end

/-- `fail_with_message(message)`: print to stderr and `sys.exit(-1)`, i.e.
raise `SystemExit` carrying the message. -/
def fail_with_message {α : Type} (message : String) : Except PyExc α :=
  .error (.systemExit message)

/-- A user-supplied callable: its declared parameter names (inspected via
`signature` by `check_signatures`) and its behavior on an argument list,
which may raise. -/
structure RawFun where
  params : List String
  call : List PyVal → Except PyExc PyVal

/-- `call_user_code(function, *args)`: run the user function; a bare `except:`
catches any exception it raises, prints the traceback, and calls
`fail_with_message("Quiz failed with exception!")`. -/
def call_user_code (function : RawFun) (args : List PyVal) : Except PyExc PyVal :=
  match function.call args with
  | .ok v => .ok v
  | .error _ => fail_with_message "Quiz failed with exception!"

/-- `check_signatures(specs)`: each `(name, f, n_param)` must have exactly
`n_param` declared parameters, else a fatal failure naming the function, the
expected count and the actual parameter names. (In this embedding every
provided attribute is a `RawFun`, hence callable, so the `callable(f)` guard
of the source never fires.) -/
def check_signatures : List (String × RawFun × Nat) → Except PyExc Unit
  | [] => .ok ()
  | (name, f, n_param) :: rest =>
    if f.params.length ≠ n_param then
      let parms := if f.params.isEmpty then "none" else String.intercalate ", " f.params
      fail_with_message
        ("Expected `" ++ name ++ "` with " ++ toString n_param ++ " arguments, got " ++ parms ++ ".")
    else
      check_signatures rest

/-- Modelled from the spec: the external serialization utility
(`stepic_utils.utils.encode` / `decode`, not part of the core source) maps a
value to a bytes-like value and back; either direction may fail, which the
clue cleaner treats as "clue is not serializable". -/
structure Serializer where
  encode : PyVal → Option PyVal
  decode : PyVal → Option PyVal

/-- `BaseQuiz.clean_dataset`: a dataset must be a dict, str or bytes; a str or
bytes is wrapped as a single-entry dict under key `"file"`. -/
def BaseQuiz.clean_dataset (dataset : PyVal) : Except PyExc PyVal :=
  match dataset with
  | .dict entries => .ok (.dict entries)
  | .str s => .ok (.dict [(.str "file", .str s)])
  | .bytes s => .ok (.dict [(.str "file", .bytes s)])
  | v => fail_with_message ("dataset should be one of (dict, str, bytes) instead of " ++ pyRepr v)

/-- `BaseQuiz.clean_clue`: the cleaned clue is `decode(encode(clue))`; a
serialization failure is fatal. -/
def BaseQuiz.clean_clue (ser : Serializer) (clue : PyVal) : Except PyExc PyVal :=
  match ser.encode clue >>= ser.decode with
  | some cleaned_clue => .ok cleaned_clue
  | Option.none => fail_with_message ("clue is not serializable: " ++ pyRepr clue)

/-- `BaseQuiz.clean_answer`: an answer must be a str and is returned as is. -/
def BaseQuiz.clean_answer (answer : PyVal) : Except PyExc PyVal :=
  match answer with
  | .str s => .ok (.str s)
  | v => fail_with_message ("answer should be a str instead of " ++ pyRepr v)

/-- The numeric value of a `numbers.Real` instance: ints and floats carry
their rational value, bools count as 1 and 0. Non-real values give `none`. -/
def realValue : PyVal → Option ℚ
  | .num q => some q
  | .bool b => some (if b then 1 else 0)
  | _ => Option.none

/-- `BaseQuiz.clean_score`: the score must satisfy
`isinstance(score, numbers.Real) and 0.0 <= score <= 1.0` and is returned
unchanged. -/
def BaseQuiz.clean_score (score : PyVal) : Except PyExc PyVal :=
  match realValue score with
  | some q =>
    if 0 ≤ q ∧ q ≤ 1 then .ok score
    else fail_with_message "score should be a number in range [0, 1]"
  | Option.none => fail_with_message "score should be a number in range [0, 1]"

/-- `BaseQuiz.clean_hint`: the hint must be a str and is returned as is. -/
def BaseQuiz.clean_hint (hint : PyVal) : Except PyExc PyVal :=
  match hint with
  | .str s => .ok (.str s)
  | _ => fail_with_message "hint should be a str"

/-- `CodeQuiz.clean_dataset`: for the code variant a dataset must be a plain
str (dicts and bytes are rejected). -/
def CodeQuiz.clean_dataset (dataset : PyVal) : Except PyExc PyVal :=
  match dataset with
  | .str s => .ok (.str s)
  | v => fail_with_message ("dataset should be a str instead of " ++ pyRepr v)

/-- The unwrapping step of `wrap_solve`: if the dataset is a dict whose single
entry has key `"file"`, pass the raw value to the solver instead
(`isinstance(dataset, dict) and 'file' in dataset and len(dataset) == 1`). -/
def unwrapFileDataset (dataset : PyVal) : PyVal :=
  match dataset with
  | .dict [(.str "file", v)] => v
  | d => d

/-- `BaseQuiz.wrap_solve`: unwrap a `\x7b'file': raw\x7d` dataset, invoke the
raw solver through `call_user_code`, and clean the answer. -/
def BaseQuiz.wrap_solve (solve : RawFun) (dataset : PyVal) : Except PyExc PyVal := do
  let a ← call_user_code solve [unwrapFileDataset dataset]
  BaseQuiz.clean_answer a

/-- `BaseQuiz.wrap_generate`: invoke raw generate; a 2-tuple is
`(dataset, clue)`, a tuple of any other length is fatal, and a non-tuple is
the dataset alone with the clue derived via the wrapped solve; finally both
components are cleaned. `solveW` is the already-wrapped solve (`self.solve`). -/
def BaseQuiz.wrap_generate (ser : Serializer) (generate : RawFun)
    (solveW : PyVal → Except PyExc PyVal) : Except PyExc (PyVal × PyVal) := do
  let ret ← call_user_code generate []
  let pair ← match ret with
    | .tuple [d, c] => pure (d, c)
    | .tuple _ =>
      fail_with_message
        ("generate() returned a tuple but it's length is not 2.\n" ++
         "generate should return either a dataset or a (dataset, clue) tuple.")
    | v => do
      let c ← solveW v
      pure (v, c)
  let dataset ← BaseQuiz.clean_dataset pair.1
  let clue ← BaseQuiz.clean_clue ser pair.2
  pure (dataset, clue)

/-- `BaseQuiz.wrap_check`: invoke raw check; a 2-tuple is `(score, hint)`, a
tuple of any other length is fatal, and a non-tuple is the score alone with
the hint defaulting to `''`; then the score and the hint are cleaned. -/
def BaseQuiz.wrap_check (check : RawFun) (reply clue : PyVal) :
    Except PyExc (PyVal × PyVal) := do
  let ret ← call_user_code check [reply, clue]
  let pair ← match ret with
    | .tuple [s, h] => pure (s, h)
    | .tuple _ =>
      fail_with_message
        ("check() returned a tuple but it's length is not 2.\n" ++
         "check should return either a score or a (score, hit) tuple.")
    | v => pure (v, .str "")
  let score_value ← BaseQuiz.clean_score pair.1
  let hint ← BaseQuiz.clean_hint pair.2
  pure (score_value, hint)

/-- A constructed `DatasetQuiz` (and the `BaseQuiz` shape generally): the
three wrapped operations held by the instance. -/
structure DQuiz where
  generate : Except PyExc (PyVal × PyVal)
  solve : PyVal → Except PyExc PyVal
  check : PyVal → PyVal → Except PyExc (PyVal × PyVal)

/-- `BaseQuiz.__init__`: wrap the three raw functions; `wrap_generate` uses
the wrapped solve. -/
def BaseQuiz.make (ser : Serializer) (generate_fun solve_fun check_fun : RawFun) : DQuiz :=
  let solveW := BaseQuiz.wrap_solve solve_fun
  { generate := BaseQuiz.wrap_generate ser generate_fun solveW
    solve := solveW
    check := BaseQuiz.wrap_check check_fun }

/-- A quiz module as read by the harness: an optional `generate`, mandatory
`solve` and `check`, and an optional `tests` attribute (an arbitrary value;
its shape is validated by the test runner). -/
structure QuizModule where
  generate : Option RawFun
  solve : RawFun
  check : RawFun
  tests : Option PyVal

/-- `DatasetQuiz.__init__`: with `generate` absent the module must export
`solve/0` and `check/1`, and the effective contract is synthesized
(`generate → (\x7b\x7d, '')`, `solve dataset → solve_fun()`,
`check reply clue → check_fun(reply)`); with `generate` present the arities
must be `generate/0`, `solve/1`, `check/2`. -/
def DatasetQuiz.init (ser : Serializer) (m : QuizModule) : Except PyExc DQuiz :=
  match m.generate with
  | Option.none => do
    check_signatures [("solve", m.solve, 0), ("check", m.check, 1)]
    let generate : RawFun := ⟨[], fun _ => .ok (.tuple [.dict [], .str ""])⟩
    let solve : RawFun := ⟨["dataset"], fun _ => m.solve.call []⟩
    let check : RawFun := ⟨["reply", "clue"], fun args => m.check.call (args.take 1)⟩
    pure (BaseQuiz.make ser generate solve check)
  | some generate_fun => do
    check_signatures
      [("generate", generate_fun, 0), ("solve", m.solve, 1), ("check", m.check, 2)]
    pure (BaseQuiz.make ser generate_fun m.solve m.check)

/-- Python equality of a score against the int literal `1`
(`score == 1`): real numbers compare by value, `True == 1` holds. -/
def pyEqOne (v : PyVal) : Bool :=
  match realValue v with
  | some q => q == 1
  | Option.none => false

/-- `DatasetQuiz.self_check`: one generate → solve → check round, true iff
the score equals exactly 1. -/
def DatasetQuiz.self_check (q : DQuiz) : Except PyExc Bool := do
  let (dataset, clue) ← q.generate
  let answer ← q.solve dataset
  let (score, _hint) ← q.check answer clue
  pure (pyEqOne score)

/-- `is_dataset(x)`: a bare string test case. -/
def is_dataset (x : PyVal) : Bool :=
  match x with
  | .str _ => true
  | _ => false

/-- `is_dataset_and_clue(x)`: a 2-tuple whose first component is a string. -/
def is_dataset_and_clue (x : PyVal) : Bool :=
  match x with
  | .tuple [.str _, _] => true
  | _ => false

/-- The per-element pipeline of `CodeQuiz.wrap_generate` on a bare dataset:
`(self.clean_dataset(dataset), self.clean_clue(self.solve(dataset)))`,
evaluated left to right. -/
def CodeQuiz.caseOfDataset (ser : Serializer) (solveW : PyVal → Except PyExc PyVal)
    (dataset : PyVal) : Except PyExc (PyVal × PyVal) := do
  let cd ← CodeQuiz.clean_dataset dataset
  let a ← solveW dataset
  let cc ← BaseQuiz.clean_clue ser a
  pure (cd, cc)

/-- The per-element pipeline of `CodeQuiz.wrap_generate` on an explicit
`(dataset, clue)` pair. A non-2-tuple element cannot reach this pipeline
(the `all(map(is_dataset_and_clue, ret))` guard holds); it is mapped to the
unpack fault Python would raise. -/
def CodeQuiz.caseOfPair (ser : Serializer) (x : PyVal) : Except PyExc (PyVal × PyVal) :=
  match x with
  | .tuple [dataset, clue] => do
    let cd ← CodeQuiz.clean_dataset dataset
    let cc ← BaseQuiz.clean_clue ser clue
    pure (cd, cc)
  | _ => .error .valueError

/-- The list comprehensions of `CodeQuiz.wrap_generate`: apply the
per-element pipeline left to right, propagating the first fault. -/
def collectCases (f : PyVal → Except PyExc (PyVal × PyVal)) :
    List PyVal → Except PyExc (List (PyVal × PyVal))
  | [] => .ok []
  | x :: xs => do
    let p ← f x
    let ps ← collectCases f xs
    pure (p :: ps)

/-- `CodeQuiz.wrap_generate`: the raw generate result must be a list, either
uniformly of bare string datasets (clues derived via the wrapped solve) or
uniformly of `(dataset, clue)` 2-tuples with string datasets; anything else
is fatal. -/
def CodeQuiz.wrap_generate (ser : Serializer) (generate : RawFun)
    (solveW : PyVal → Except PyExc PyVal) : Except PyExc (List (PyVal × PyVal)) := do
  let ret ← call_user_code generate []
  match ret with
  | .list xs =>
    if xs.all is_dataset then
      collectCases (CodeQuiz.caseOfDataset ser solveW) xs
    else if xs.all is_dataset_and_clue then
      collectCases (CodeQuiz.caseOfPair ser) xs
    else
      fail_with_message
        ("generate() should return list of dataset or list of pairs " ++
         "(dataset, clue) instead of " ++ pyRepr ret)
  | v => fail_with_message ("generate() should return a list instead of " ++ pyRepr v)

/-- A constructed `CodeQuiz`: generate produces a list of
`(dataset, clue)` cases. -/
structure CQuiz where
  generate : Except PyExc (List (PyVal × PyVal))
  solve : PyVal → Except PyExc PyVal
  check : PyVal → PyVal → Except PyExc (PyVal × PyVal)

/-- `BaseQuiz.__init__` as specialized by `CodeQuiz` (which overrides
`wrap_generate` and `clean_dataset`). -/
def CodeQuiz.make (ser : Serializer) (generate_fun solve_fun check_fun : RawFun) : CQuiz :=
  let solveW := BaseQuiz.wrap_solve solve_fun
  { generate := CodeQuiz.wrap_generate ser generate_fun solveW
    solve := solveW
    check := BaseQuiz.wrap_check check_fun }

/-- `CodeQuiz.__init__`: `generate` is mandatory; arities are `generate/0`,
`solve/1`, `check/2`. -/
def CodeQuiz.init (ser : Serializer) (m : QuizModule) : Except PyExc CQuiz :=
  match m.generate with
  | Option.none => fail_with_message "Code Quiz should export generate"
  | some generate_fun => do
    check_signatures
      [("generate", generate_fun, 0), ("solve", m.solve, 1), ("check", m.check, 2)]
    pure (CodeQuiz.make ser generate_fun m.solve m.check)

/-- The `all(itertools.starmap(is_correct, test_cases))` loop of
`CodeQuiz.self_check`: solve each dataset, check the answer against the
clue, and stop at the first score different from 1. -/
def CodeQuiz.allCorrect (solveW : PyVal → Except PyExc PyVal)
    (checkW : PyVal → PyVal → Except PyExc (PyVal × PyVal)) :
    List (PyVal × PyVal) → Except PyExc Bool
  | [] => .ok true
  | (dataset, clue) :: rest => do
    let answer ← solveW dataset
    let (score, _hint) ← checkW answer clue
    if pyEqOne score then CodeQuiz.allCorrect solveW checkW rest else pure false

/-- `CodeQuiz.self_check`: generate the case list and require every case to
score exactly 1. -/
def CodeQuiz.self_check (q : CQuiz) : Except PyExc Bool := do
  let test_cases ← q.generate
  CodeQuiz.allCorrect q.solve q.check test_cases

/-- `QuizModuleTest.testSamples`: for each declared `(dataset, clue, reply)`
triple, `check(reply, clue)` must score exactly 1; a mismatch raises an
assertion failure (`assertEqual`), and a malformed triple raises the unpack
fault of `for dataset, clue, reply in self.tests`. -/
def QuizModuleTest.testSamples (checkW : PyVal → PyVal → Except PyExc (PyVal × PyVal)) :
    List PyVal → Except PyExc Unit
  | [] => .ok ()
  | .tuple [_dataset, clue, reply] :: rest => do
    let (score, _) ← checkW reply clue
    if pyEqOne score then QuizModuleTest.testSamples checkW rest
    else
      .error (.assertionError
        ("\nscore(reply, clue) != 1!\nscore(" ++ pyRepr reply ++ ", " ++
         pyRepr clue ++ ") == " ++ pyRepr score))
  | _ :: _ => .error .valueError

/-- `QuizModuleTest.testSolve`: for each declared triple,
`check(solve(dataset), clue)` must score exactly 1. -/
def QuizModuleTest.testSolve (solveW : PyVal → Except PyExc PyVal)
    (checkW : PyVal → PyVal → Except PyExc (PyVal × PyVal)) :
    List PyVal → Except PyExc Unit
  | [] => .ok ()
  | .tuple [dataset, clue, _reply] :: rest => do
    let computed_reply ← solveW dataset
    let (score, _) ← checkW computed_reply clue
    if pyEqOne score then QuizModuleTest.testSolve solveW checkW rest
    else
      .error (.assertionError
        ("\nscore(solve(dataset), clue) != 1!\nscore(" ++ pyRepr computed_reply ++
         ", " ++ pyRepr clue ++ ") == " ++ pyRepr score))
  | _ :: _ => .error .valueError

/-- Outcome of one test as recorded by the external test framework. -/
inductive TestOutcome where
  | passed
  | reportedFailure (e : PyExc)

/-- Modelled from the spec: the external test-discovery framework (unittest,
not part of the core source) runs a test body under its own exception
handling; any fault the body raises — assertion failures and harness
`SystemExit`s alike — is recorded as a reported per-case test failure
through the framework's reporting channel, not as a process exit. -/
def runUnderFramework (body : Except PyExc Unit) : TestOutcome :=
  match body with
  | .ok () => .passed
  | .error e => .reportedFailure e

/-- Outcome of running a harness computation at top level, outside the test
framework. -/
inductive ProcessOutcome (α : Type) where
  | completed (v : α)
  | exited (status : Int) (stderr : String)

/-- A harness-fatal context: a wrapped operation invoked outside the test
framework. An uncaught `SystemExit` from `fail_with_message` terminates the
process with status -1 after printing the message; any other uncaught fault
terminates it with the interpreter's status 1. -/
def runTopLevel {α : Type} (comp : Except PyExc α) : ProcessOutcome α :=
  match comp with
  | .ok v => .completed v
  | .error (.systemExit msg) => .exited (-1) msg
  | .error _ => .exited 1 "traceback"

example : BaseQuiz.clean_dataset (.str "x") = .ok (.dict [(.str "file", .str "x")]) := rfl
example : BaseQuiz.clean_score (.num 1) = .ok (.num 1) := rfl
example : BaseQuiz.clean_score (.num (10001/10000)) =
    .error (.systemExit "score should be a number in range [0, 1]") := by
  have h : ¬ ((0 : ℚ) ≤ 10001/10000 ∧ (10001 : ℚ)/10000 ≤ 1) := by norm_num
  simp [BaseQuiz.clean_score, realValue, fail_with_message, h]

@[simp] theorem pyBindOk {α β : Type} (a : α) (f : α → Except PyExc β) :
    (Except.ok a >>= f : Except PyExc β) = f a := rfl

@[simp] theorem pyBindError {α β : Type} (e : PyExc) (f : α → Except PyExc β) :
    (Except.error e >>= f : Except PyExc β) = .error e := rfl

@[simp] theorem pyPureEq {α : Type} (a : α) : (pure a : Except PyExc α) = .ok a := rfl

/-- Characterization of a successful score cleaning: the value is returned
unchanged and is a real number in [0, 1]. -/
theorem clean_score_ok {v w : PyVal} (h : BaseQuiz.clean_score v = .ok w) :
    w = v ∧ ∃ q, realValue v = some q ∧ 0 ≤ q ∧ q ≤ 1 := by
  unfold BaseQuiz.clean_score at h
  cases hr : realValue v with
  | none => rw [hr] at h; simp [fail_with_message] at h
  | some q =>
    rw [hr] at h
    dsimp only at h
    by_cases hq : 0 ≤ q ∧ q ≤ 1
    · rw [if_pos hq] at h
      injection h with h
      exact ⟨h.symm, q, hr ▸ rfl, hq.1, hq.2⟩
    · rw [if_neg hq] at h; simp [fail_with_message] at h

/-- A real number in [0, 1] passes score cleaning unchanged. -/
theorem clean_score_ok_of {v : PyVal} {q : ℚ} (hr : realValue v = some q)
    (h0 : 0 ≤ q) (h1 : q ≤ 1) : BaseQuiz.clean_score v = .ok v := by
  unfold BaseQuiz.clean_score
  rw [hr]
  dsimp only
  rw [if_pos ⟨h0, h1⟩]

/-- A non-real value fails score cleaning fatally. -/
theorem clean_score_fatal {v : PyVal} (hr : realValue v = Option.none) :
    BaseQuiz.clean_score v = .error (.systemExit "score should be a number in range [0, 1]") := by
  unfold BaseQuiz.clean_score
  rw [hr]
  rfl

/-- A successful answer cleaning returns the same string. -/
theorem clean_answer_ok {v w : PyVal} (h : BaseQuiz.clean_answer v = .ok w) :
    w = v ∧ ∃ s, v = .str s := by
  cases v <;> simp only [BaseQuiz.clean_answer, fail_with_message,
    Except.ok.injEq, reduceCtorEq] at h
  case str s => exact ⟨h.symm, s, rfl⟩

/-- A successful hint cleaning returns the same string. -/
theorem clean_hint_ok {v w : PyVal} (h : BaseQuiz.clean_hint v = .ok w) :
    w = v ∧ ∃ s, v = .str s := by
  cases v <;> simp only [BaseQuiz.clean_hint, fail_with_message,
    Except.ok.injEq, reduceCtorEq] at h
  case str s => exact ⟨h.symm, s, rfl⟩

/-- A successful base dataset cleaning always yields a dict. -/
theorem clean_dataset_ok {v w : PyVal} (h : BaseQuiz.clean_dataset v = .ok w) :
    ∃ entries, w = .dict entries := by
  cases v <;> simp [BaseQuiz.clean_dataset, fail_with_message] at h <;> exact ⟨_, h.symm⟩

/-- A successful code-variant dataset cleaning always yields a str, the
input itself. -/
theorem code_clean_dataset_ok {v w : PyVal} (h : CodeQuiz.clean_dataset v = .ok w) :
    w = v ∧ ∃ s, v = .str s := by
  cases v <;> simp only [CodeQuiz.clean_dataset, fail_with_message,
    Except.ok.injEq, reduceCtorEq] at h
  case str s => exact ⟨h.symm, s, rfl⟩

/-- An out-of-range real number fails score cleaning fatally. -/
theorem clean_score_fatal_range {v : PyVal} {q : ℚ} (hr : realValue v = some q)
    (h : ¬ (0 ≤ q ∧ q ≤ 1)) :
    BaseQuiz.clean_score v = .error (.systemExit "score should be a number in range [0, 1]") := by
  unfold BaseQuiz.clean_score
  rw [hr]
  dsimp only
  rw [if_neg h]
  rfl

/-- Whatever branch `wrap_check` takes, a returned score has passed score
cleaning (hence is a fixpoint of it) and a returned hint is a string. -/
theorem wrap_check_ok {check : RawFun} {reply clue s h : PyVal}
    (hw : BaseQuiz.wrap_check check reply clue = .ok (s, h)) :
    BaseQuiz.clean_score s = .ok s ∧ ∃ t, h = .str t := by
  unfold BaseQuiz.wrap_check at hw
  cases hc : call_user_code check [reply, clue] with
  | error e => rw [hc] at hw; simp at hw
  | ok ret =>
    rw [hc, pyBindOk] at hw
    have step : ∀ p1 p2 : PyVal,
        (do
          let score_value ← BaseQuiz.clean_score p1
          let hint ← BaseQuiz.clean_hint p2
          pure (score_value, hint) : Except PyExc (PyVal × PyVal)) = .ok (s, h) →
        BaseQuiz.clean_score s = .ok s ∧ ∃ t, h = .str t := by
      intro p1 p2 hp
      cases hs : BaseQuiz.clean_score p1 with
      | error e => rw [hs] at hp; simp at hp
      | ok sv =>
        rw [hs, pyBindOk] at hp
        cases hh : BaseQuiz.clean_hint p2 with
        | error e => rw [hh] at hp; simp at hp
        | ok hv =>
          rw [hh, pyBindOk, pyPureEq] at hp
          injection hp with hp
          simp only [Prod.mk.injEq] at hp
          obtain ⟨rfl, rfl⟩ := hp
          obtain ⟨rfl, q, hq, h0, h1⟩ := clean_score_ok hs
          obtain ⟨rfl, t, rfl⟩ := clean_hint_ok hh
          exact ⟨hs, t, rfl⟩
    split at hw
    · rw [pyPureEq, pyBindOk] at hw
      exact step _ _ hw
    · simp [fail_with_message] at hw
    · rw [pyPureEq, pyBindOk] at hw
      exact step _ _ hw

/-- A user call whose function returns normally passes the value through. -/
theorem call_user_code_ret {f : RawFun} {args : List PyVal} {v : PyVal}
    (h : f.call args = .ok v) : call_user_code f args = .ok v := by
  unfold call_user_code
  rw [h]

/-- A user call whose function raises is converted into the uniform fatal
failure. -/
theorem call_user_code_exc {f : RawFun} {args : List PyVal} {e : PyExc}
    (h : f.call args = .error e) :
    call_user_code f args = .error (.systemExit "Quiz failed with exception!") := by
  unfold call_user_code
  rw [h]
  rfl

/-- C8: the cleaning functions for score, answer and dataset are idempotent:
whenever a cleaner accepts a value, applying the same cleaner to the cleaned
result succeeds and returns the same cleaned value (this covers the base
dataset cleaner and the narrower code-variant one). -/
theorem C8_cleaning_idempotent :
    (∀ v w, BaseQuiz.clean_score v = .ok w → BaseQuiz.clean_score w = .ok w) ∧
    (∀ v w, BaseQuiz.clean_answer v = .ok w → BaseQuiz.clean_answer w = .ok w) ∧
    (∀ v w, BaseQuiz.clean_dataset v = .ok w → BaseQuiz.clean_dataset w = .ok w) ∧
    (∀ v w, CodeQuiz.clean_dataset v = .ok w → CodeQuiz.clean_dataset w = .ok w) := by
  refine ⟨?_, ?_, ?_, ?_⟩
  · intro v w h
    obtain ⟨rfl, q, hr, h0, h1⟩ := clean_score_ok h
    exact clean_score_ok_of hr h0 h1
  · intro v w h
    obtain ⟨rfl, s, rfl⟩ := clean_answer_ok h
    rfl
  · intro v w h
    obtain ⟨entries, rfl⟩ := clean_dataset_ok h
    rfl
  · intro v w h
    obtain ⟨rfl, s, rfl⟩ := code_clean_dataset_ok h
    rfl

/-- Witness for C8: concrete already-clean values pass their cleaners again. -/
theorem C8_cleaning_idempotent_witness :
    BaseQuiz.clean_score (.num 1) = .ok (.num 1) ∧
    BaseQuiz.clean_answer (.str "a") = .ok (.str "a") ∧
    BaseQuiz.clean_dataset (.dict [(.str "file", .str "x")]) =
      .ok (.dict [(.str "file", .str "x")]) ∧
    CodeQuiz.clean_dataset (.str "d") = .ok (.str "d") :=
  ⟨C8_cleaning_idempotent.1 (.num 1) _ rfl,
   C8_cleaning_idempotent.2.1 (.str "a") _ rfl,
   C8_cleaning_idempotent.2.2.1 (.str "x") _ rfl,
   C8_cleaning_idempotent.2.2.2 (.str "d") _ rfl⟩

/-- Discriminator for dict values. -/
def PyVal.isDict : PyVal → Bool
  | .dict _ => true
  | _ => false

/-- Discriminator for str values. -/
def PyVal.isStr : PyVal → Bool
  | .str _ => true
  | _ => false

/-- C9: whenever dataset cleaning succeeds, the cleaned dataset is a mapping
for the base/DatasetQuiz cleaner and a plain string for the CodeQuiz
cleaner; no other type is ever returned. -/
theorem C9_cleaned_dataset_types :
    (∀ v w, BaseQuiz.clean_dataset v = .ok w → w.isDict = true) ∧
    (∀ v w, CodeQuiz.clean_dataset v = .ok w → w.isStr = true) := by
  constructor
  · intro v w h
    obtain ⟨entries, rfl⟩ := clean_dataset_ok h
    rfl
  · intro v w h
    obtain ⟨rfl, s, rfl⟩ := code_clean_dataset_ok h
    rfl

/-- Witness for C9: concrete cleaned datasets have the invariant types. -/
theorem C9_cleaned_dataset_types_witness :
    PyVal.isDict (.dict [(.str "file", .str "x")]) = true ∧
    PyVal.isStr (.str "d") = true :=
  ⟨C9_cleaned_dataset_types.1 (.str "x") _ rfl,
   C9_cleaned_dataset_types.2 (.str "d") _ rfl⟩

/-- C7: whenever `clean_clue` succeeds, `decode(encode(clue))` succeeds and
the cleaned clue is exactly that decoded value; a clue on which the
encode-then-decode round trip fails is rejected harness-fatally as
unserializable. -/
theorem C7_clue_round_trip :
    (∀ (ser : Serializer) (clue v : PyVal), BaseQuiz.clean_clue ser clue = .ok v →
       ser.encode clue >>= ser.decode = some v) ∧
    (∀ (ser : Serializer) (clue : PyVal), ser.encode clue >>= ser.decode = Option.none →
       BaseQuiz.clean_clue ser clue =
         .error (.systemExit ("clue is not serializable: " ++ pyRepr clue))) := by
  constructor
  · intro ser clue v h
    unfold BaseQuiz.clean_clue at h
    cases hd : ser.encode clue >>= ser.decode with
    | none => rw [hd] at h; simp [fail_with_message] at h
    | some u =>
      rw [hd] at h
      dsimp only at h
      injection h with h
      exact congrArg some h
  · intro ser clue h
    unfold BaseQuiz.clean_clue
    rw [h]
    rfl

/-- Witness for C7: with a concrete serializer, a cleaned clue equals the
round-tripped value. -/
theorem C7_clue_round_trip_witness :
    (Serializer.mk some some).encode (.str "c") >>= (Serializer.mk some some).decode =
      some (.str "c") :=
  C7_clue_round_trip.1 ⟨some, some⟩ (.str "c") (.str "c") rfl

/-- C4: score cleaning succeeds exactly on real numbers in the closed
interval [0, 1] and returns the value unchanged; 0.0 and 1.0 are accepted,
1.0001 and -0.0001 and every non-number are rejected harness-fatally; and
the cleaning is applied to the score of every `wrap_check` result. -/
theorem C4_score_range :
    (∀ v, BaseQuiz.clean_score v = .ok v ↔ ∃ q, realValue v = some q ∧ 0 ≤ q ∧ q ≤ 1) ∧
    (∀ v w, BaseQuiz.clean_score v = .ok w → w = v) ∧
    BaseQuiz.clean_score (.num 0) = .ok (.num 0) ∧
    BaseQuiz.clean_score (.num 1) = .ok (.num 1) ∧
    BaseQuiz.clean_score (.num (10001/10000)) =
      .error (.systemExit "score should be a number in range [0, 1]") ∧
    BaseQuiz.clean_score (.num (-(1/10000))) =
      .error (.systemExit "score should be a number in range [0, 1]") ∧
    (∀ v, realValue v = Option.none →
       BaseQuiz.clean_score v = .error (.systemExit "score should be a number in range [0, 1]")) ∧
    (∀ (check : RawFun) (reply clue s h : PyVal),
       BaseQuiz.wrap_check check reply clue = .ok (s, h) → BaseQuiz.clean_score s = .ok s) := by
  refine ⟨?_, ?_, ?_, ?_, ?_, ?_, ?_, ?_⟩
  · intro v
    constructor
    · intro h
      obtain ⟨-, q, hq, h0, h1⟩ := clean_score_ok h
      exact ⟨q, hq, h0, h1⟩
    · rintro ⟨q, hq, h0, h1⟩
      exact clean_score_ok_of hq h0 h1
  · intro v w h
    exact (clean_score_ok h).1
  · exact clean_score_ok_of (q := 0) rfl le_rfl zero_le_one
  · exact clean_score_ok_of (q := 1) rfl zero_le_one le_rfl
  · exact clean_score_fatal_range rfl (by norm_num)
  · exact clean_score_fatal_range rfl (by norm_num)
  · intro v h
    exact clean_score_fatal h
  · intro check reply clue s h hw
    exact (wrap_check_ok hw).1

/-- Witness for C4: a check whose raw result is the bare number 1 yields a
score accepted by the cleaner. -/
theorem C4_score_range_witness :
    BaseQuiz.clean_score (.num 1) = .ok (.num 1) ∧ realValue (.list []) = Option.none :=
  ⟨C4_score_range.2.2.2.2.2.2.2 ⟨["reply", "clue"], fun _ => .ok (.num 1)⟩
     (.str "r") (.str "c") (.num 1) (.str "") rfl,
   rfl⟩

/-- C6: the wrapped check takes a raw 2-tuple result as `(score, hint)`, a
tuple of any other length as a fatal configuration error, and any non-tuple
result as the score alone with the hint defaulting to the empty string; the
score and hint then pass through their cleaners, a non-string hint being
harness-fatal. -/
theorem C6_wrap_check_shapes :
    (∀ (check : RawFun) (reply clue s h : PyVal),
       check.call [reply, clue] = .ok (.tuple [s, h]) →
       BaseQuiz.wrap_check check reply clue =
         (do
           let score_value ← BaseQuiz.clean_score s
           let hint ← BaseQuiz.clean_hint h
           pure (score_value, hint))) ∧
    (∀ (check : RawFun) (reply clue : PyVal) (xs : List PyVal),
       check.call [reply, clue] = .ok (.tuple xs) → xs.length ≠ 2 →
       BaseQuiz.wrap_check check reply clue =
         .error (.systemExit
           ("check() returned a tuple but it's length is not 2.\n" ++
            "check should return either a score or a (score, hit) tuple."))) ∧
    (∀ (check : RawFun) (reply clue v : PyVal),
       check.call [reply, clue] = .ok v → (∀ xs, v ≠ .tuple xs) →
       BaseQuiz.wrap_check check reply clue =
         (do
           let score_value ← BaseQuiz.clean_score v
           let hint ← BaseQuiz.clean_hint (.str "")
           pure (score_value, hint))) ∧
    (∀ h : PyVal, (∀ s, h ≠ .str s) →
       BaseQuiz.clean_hint h = .error (.systemExit "hint should be a str")) := by
  refine ⟨?_, ?_, ?_, ?_⟩
  · intro check reply clue s h hc
    unfold BaseQuiz.wrap_check
    rw [call_user_code_ret hc, pyBindOk]
    rfl
  · intro check reply clue xs hc hlen
    unfold BaseQuiz.wrap_check
    rw [call_user_code_ret hc, pyBindOk]
    match xs, hlen with
    | [], _ => rfl
    | [a], _ => rfl
    | [a, b], hlen => exact absurd rfl hlen
    | a :: b :: c :: rest, _ => rfl
  · intro check reply clue v hc hv
    unfold BaseQuiz.wrap_check
    rw [call_user_code_ret hc, pyBindOk]
    match v, hv with
    | .none, _ => rfl
    | .bool b, _ => rfl
    | .num q, _ => rfl
    | .str s, _ => rfl
    | .bytes s, _ => rfl
    | .tuple xs, hv => exact absurd rfl (hv xs)
    | .list xs, _ => rfl
    | .dict entries, _ => rfl
  · intro h hs
    match h, hs with
    | .none, _ => rfl
    | .bool b, _ => rfl
    | .num q, _ => rfl
    | .str s, hs => exact absurd rfl (hs s)
    | .bytes s, _ => rfl
    | .tuple xs, _ => rfl
    | .list xs, _ => rfl
    | .dict entries, _ => rfl

/-- Witness for C6: a raw check returning `(1, 'ok')` is split into score and
hint and piped through the cleaners. -/
theorem C6_wrap_check_shapes_witness :
    BaseQuiz.wrap_check ⟨["reply", "clue"], fun _ => .ok (.tuple [.num 1, .str "ok"])⟩
      (.str "r") (.str "c") =
    (do
      let score_value ← BaseQuiz.clean_score (.num 1)
      let hint ← BaseQuiz.clean_hint (.str "ok")
      pure (score_value, hint)) :=
  C6_wrap_check_shapes.1 ⟨["reply", "clue"], fun _ => .ok (.tuple [.num 1, .str "ok"])⟩
    (.str "r") (.str "c") (.num 1) (.str "ok") rfl

/-- A pointwise-successful case collection succeeds with the pointwise
results. -/
theorem collectCases_ok_of_forall₂ {f : PyVal → Except PyExc (PyVal × PyVal)}
    {xs : List PyVal} {ps : List (PyVal × PyVal)}
    (h : List.Forall₂ (fun a b => f a = .ok b) xs ps) :
    collectCases f xs = .ok ps := by
  induction h with
  | nil => rfl
  | cons hab htail ih =>
    unfold collectCases
    rw [hab, pyBindOk, ih, pyBindOk, pyPureEq]

/-- Success characterization of the bare-dataset pipeline of
`CodeQuiz.wrap_generate`. -/
theorem caseOfDataset_ok {ser : Serializer} {solveW : PyVal → Except PyExc PyVal}
    {d : PyVal} {p : PyVal × PyVal} :
    CodeQuiz.caseOfDataset ser solveW d = .ok p ↔
      ∃ a, CodeQuiz.clean_dataset d = .ok p.1 ∧ solveW d = .ok a ∧
        BaseQuiz.clean_clue ser a = .ok p.2 := by
  constructor
  · intro h
    unfold CodeQuiz.caseOfDataset at h
    cases h1 : CodeQuiz.clean_dataset d with
    | error e => rw [h1] at h; simp at h
    | ok cd =>
      rw [h1, pyBindOk] at h
      cases h2 : solveW d with
      | error e => rw [h2] at h; simp at h
      | ok a =>
        rw [h2, pyBindOk] at h
        cases h3 : BaseQuiz.clean_clue ser a with
        | error e => rw [h3] at h; simp at h
        | ok cc =>
          rw [h3, pyBindOk, pyPureEq] at h
          injection h with h
          subst h
          exact ⟨a, rfl, rfl, h3⟩
  · rintro ⟨a, h1, h2, h3⟩
    unfold CodeQuiz.caseOfDataset
    obtain ⟨p1, p2⟩ := p
    rw [h1, pyBindOk, h2, pyBindOk, h3, pyBindOk, pyPureEq]

/-- Success characterization of the explicit-pair pipeline of
`CodeQuiz.wrap_generate`. -/
theorem caseOfPair_ok {ser : Serializer} {d c : PyVal} {p : PyVal × PyVal} :
    CodeQuiz.caseOfPair ser (.tuple [d, c]) = .ok p ↔
      CodeQuiz.clean_dataset d = .ok p.1 ∧ BaseQuiz.clean_clue ser c = .ok p.2 := by
  constructor
  · intro h
    unfold CodeQuiz.caseOfPair at h
    dsimp only at h
    cases h1 : CodeQuiz.clean_dataset d with
    | error e => rw [h1] at h; simp at h
    | ok cd =>
      rw [h1, pyBindOk] at h
      cases h2 : BaseQuiz.clean_clue ser c with
      | error e => rw [h2] at h; simp at h
      | ok cc =>
        rw [h2, pyBindOk, pyPureEq] at h
        injection h with h
        subst h
        exact ⟨rfl, rfl⟩
  · rintro ⟨h1, h2⟩
    unfold CodeQuiz.caseOfPair
    obtain ⟨p1, p2⟩ := p
    dsimp only
    rw [h1, pyBindOk, h2, pyBindOk, pyPureEq]

/-- Reduction of `CodeQuiz.wrap_generate` once the raw generate has returned
a list. -/
theorem code_wrap_generate_list {ser : Serializer} {gen : RawFun}
    {solveW : PyVal → Except PyExc PyVal} {xs : List PyVal}
    (hc : gen.call [] = .ok (.list xs)) :
    CodeQuiz.wrap_generate ser gen solveW =
      (if xs.all is_dataset then collectCases (CodeQuiz.caseOfDataset ser solveW) xs
       else if xs.all is_dataset_and_clue then collectCases (CodeQuiz.caseOfPair ser) xs
       else fail_with_message
         ("generate() should return list of dataset or list of pairs " ++
          "(dataset, clue) instead of " ++ pyRepr (.list xs))) := by
  unfold CodeQuiz.wrap_generate
  rw [call_user_code_ret hc, pyBindOk]

/-- C2: for a CodeQuiz, the wrapped generate is harness-fatal on a non-list
raw result and on a list mixing bare strings with 2-tuples; a uniform list
of strings yields, per element, the cleaned dataset paired with a clue
obtained by running the wrapped solve on the element; a uniform list of
2-tuples with string first components yields the cleaned
`(dataset, clue)` pairs. -/
theorem C2_code_generate_shapes :
    (∀ (ser : Serializer) (gen : RawFun) (solveW : PyVal → Except PyExc PyVal) (v : PyVal),
       gen.call [] = .ok v → (∀ xs, v ≠ .list xs) →
       CodeQuiz.wrap_generate ser gen solveW =
         .error (.systemExit ("generate() should return a list instead of " ++ pyRepr v))) ∧
    (∀ (ser : Serializer) (gen : RawFun) (solveW : PyVal → Except PyExc PyVal)
       (xs : List PyVal) (s : String) (d c : PyVal),
       gen.call [] = .ok (.list xs) → (.str s) ∈ xs → (.tuple [d, c]) ∈ xs →
       CodeQuiz.wrap_generate ser gen solveW =
         .error (.systemExit
           ("generate() should return list of dataset or list of pairs " ++
            "(dataset, clue) instead of " ++ pyRepr (.list xs)))) ∧
    (∀ (ser : Serializer) (gen : RawFun) (solveW : PyVal → Except PyExc PyVal)
       (xs : List PyVal) (ps : List (PyVal × PyVal)),
       gen.call [] = .ok (.list xs) → xs.all is_dataset = true →
       List.Forall₂ (fun x p => ∃ a, CodeQuiz.clean_dataset x = .ok p.1 ∧
         solveW x = .ok a ∧ BaseQuiz.clean_clue ser a = .ok p.2) xs ps →
       CodeQuiz.wrap_generate ser gen solveW = .ok ps) ∧
    (∀ (ser : Serializer) (gen : RawFun) (solveW : PyVal → Except PyExc PyVal)
       (xs : List PyVal) (ps : List (PyVal × PyVal)),
       gen.call [] = .ok (.list xs) → xs.all is_dataset = false →
       xs.all is_dataset_and_clue = true →
       List.Forall₂ (fun x p => ∃ d c, x = .tuple [d, c] ∧
         CodeQuiz.clean_dataset d = .ok p.1 ∧ BaseQuiz.clean_clue ser c = .ok p.2) xs ps →
       CodeQuiz.wrap_generate ser gen solveW = .ok ps) := by
  refine ⟨?_, ?_, ?_, ?_⟩
  · intro ser gen solveW v hc hv
    unfold CodeQuiz.wrap_generate
    rw [call_user_code_ret hc, pyBindOk]
    match v, hv with
    | .none, _ => rfl
    | .bool b, _ => rfl
    | .num q, _ => rfl
    | .str s, _ => rfl
    | .bytes s, _ => rfl
    | .tuple ys, _ => rfl
    | .list ys, hv => exact absurd rfl (hv ys)
    | .dict entries, _ => rfl
  · intro ser gen solveW xs s d c hc hs hp
    have h1 : xs.all is_dataset = false := by
      rw [List.all_eq_false]
      exact ⟨.tuple [d, c], hp, by simp [is_dataset]⟩
    have h2 : xs.all is_dataset_and_clue = false := by
      rw [List.all_eq_false]
      exact ⟨.str s, hs, by simp [is_dataset_and_clue]⟩
    rw [code_wrap_generate_list hc, h1, h2]
    rfl
  · intro ser gen solveW xs ps hc hall hfa
    rw [code_wrap_generate_list hc, hall]
    simp only [if_true]
    refine collectCases_ok_of_forall₂ (List.Forall₂.imp ?_ hfa)
    intro x p hx
    exact caseOfDataset_ok.mpr hx
  · intro ser gen solveW xs ps hc hnot hall hfa
    rw [code_wrap_generate_list hc, hnot, hall]
    simp only [Bool.false_eq_true, if_false, if_true]
    refine collectCases_ok_of_forall₂ (List.Forall₂.imp ?_ hfa)
    intro x p hx
    obtain ⟨d, c, rfl, h1, h2⟩ := hx
    exact caseOfPair_ok.mpr ⟨h1, h2⟩

/-- Witness for C2: a generate returning `['d']` with a solver answering
`'a'` and an identity serializer yields the single case
`('d', 'a')`. -/
theorem C2_code_generate_shapes_witness :
    CodeQuiz.wrap_generate ⟨some, some⟩ ⟨[], fun _ => .ok (.list [.str "d"])⟩
      (fun _ => .ok (.str "a")) = .ok [(.str "d", .str "a")] :=
  C2_code_generate_shapes.2.2.1 ⟨some, some⟩ ⟨[], fun _ => .ok (.list [.str "d"])⟩
    (fun _ => .ok (.str "a")) [.str "d"] [(.str "d", .str "a")] rfl rfl
    (List.Forall₂.cons ⟨.str "a", rfl, rfl, rfl⟩ List.Forall₂.nil)

/-- C10: a raw generate returning the empty list makes the wrapped generate
succeed with the empty case list, and `self_check` then returns true
whatever the solve and check functions do (they are never invoked). -/
theorem C10_empty_case_list :
    (∀ (ser : Serializer) (gen : RawFun) (solveW : PyVal → Except PyExc PyVal),
       gen.call [] = .ok (.list []) →
       CodeQuiz.wrap_generate ser gen solveW = .ok []) ∧
    (∀ q : CQuiz, q.generate = .ok [] → CodeQuiz.self_check q = .ok true) ∧
    (∀ (ser : Serializer) (gen solve check : RawFun),
       gen.call [] = .ok (.list []) →
       CodeQuiz.self_check (CodeQuiz.make ser gen solve check) = .ok true) := by
  have h1 : ∀ (ser : Serializer) (gen : RawFun) (solveW : PyVal → Except PyExc PyVal),
      gen.call [] = .ok (.list []) →
      CodeQuiz.wrap_generate ser gen solveW = .ok [] := by
    intro ser gen solveW hc
    rw [code_wrap_generate_list hc]
    rfl
  have h2 : ∀ q : CQuiz, q.generate = .ok [] → CodeQuiz.self_check q = .ok true := by
    intro q hg
    unfold CodeQuiz.self_check
    rw [hg, pyBindOk]
    rfl
  exact ⟨h1, h2, fun ser gen solve check hc => h2 _ (h1 ser gen _ hc)⟩

/-- Witness for C10: a quiz whose generate yields `[]` self-checks true even
though its solve and check always raise. -/
theorem C10_empty_case_list_witness :
    CodeQuiz.self_check (CodeQuiz.make ⟨some, some⟩ ⟨[], fun _ => .ok (.list [])⟩
      ⟨["dataset"], fun _ => .error (.userError "boom")⟩
      ⟨["reply", "clue"], fun _ => .error (.userError "boom")⟩) = .ok true :=
  C10_empty_case_list.2.2 ⟨some, some⟩ ⟨[], fun _ => .ok (.list [])⟩
    ⟨["dataset"], fun _ => .error (.userError "boom")⟩
    ⟨["reply", "clue"], fun _ => .error (.userError "boom")⟩ rfl

/-- The batch loop of `CodeQuiz.self_check` succeeds with `true` exactly when
every case's solve and check succeed with a score of exactly 1. -/
theorem allCorrect_ok_true_iff (solveW : PyVal → Except PyExc PyVal)
    (checkW : PyVal → PyVal → Except PyExc (PyVal × PyVal))
    (l : List (PyVal × PyVal)) :
    CodeQuiz.allCorrect solveW checkW l = .ok true ↔
      ∀ dc ∈ l, ∃ a s h, solveW dc.1 = .ok a ∧ checkW a dc.2 = .ok (s, h) ∧
        pyEqOne s = true := by
  induction l with
  | nil => simp [CodeQuiz.allCorrect]
  | cons hd tl ih =>
    obtain ⟨d, c⟩ := hd
    constructor
    · intro h
      unfold CodeQuiz.allCorrect at h
      cases hs : solveW d with
      | error e => rw [hs] at h; simp at h
      | ok a =>
        rw [hs, pyBindOk] at h
        cases hc : checkW a c with
        | error e => rw [hc] at h; simp at h
        | ok p =>
          obtain ⟨s, hnt⟩ := p
          rw [hc, pyBindOk] at h
          dsimp only at h
          by_cases hq : pyEqOne s = true
          · rw [if_pos hq] at h
            intro dc hdc
            rcases List.mem_cons.mp hdc with rfl | hmem
            · exact ⟨a, s, hnt, hs, hc, hq⟩
            · exact ih.mp h dc hmem
          · rw [if_neg hq] at h
            simp at h
    · intro hall
      unfold CodeQuiz.allCorrect
      obtain ⟨a, s, hh, hs, hc, hq⟩ := hall (d, c) (List.mem_cons_self _ _)
      rw [hs, pyBindOk, hc, pyBindOk]
      dsimp only
      rw [if_pos hq]
      exact ih.mpr (fun dc hdc => hall dc (List.mem_cons_of_mem _ hdc))

/-- C5: a DatasetQuiz `self_check` runs one generate → solve → check round
and its boolean result is exactly "the score equals 1"; a CodeQuiz
`self_check` returns true exactly when generate yields a case list in which
every case's `check(solve(dataset), clue)` succeeds with score exactly 1. -/
theorem C5_self_check_criteria :
    (∀ (q : DQuiz) (b : Bool),
       DatasetQuiz.self_check q = .ok b ↔
         ∃ d c a s h, q.generate = .ok (d, c) ∧ q.solve d = .ok a ∧
           q.check a c = .ok (s, h) ∧ pyEqOne s = b) ∧
    (∀ q : CQuiz,
       CodeQuiz.self_check q = .ok true ↔
         ∃ cs, q.generate = .ok cs ∧
           ∀ dc ∈ cs, ∃ a s h, q.solve dc.1 = .ok a ∧
             q.check a dc.2 = .ok (s, h) ∧ pyEqOne s = true) := by
  constructor
  · intro q b
    constructor
    · intro hsc
      unfold DatasetQuiz.self_check at hsc
      cases hg : q.generate with
      | error e => rw [hg] at hsc; simp at hsc
      | ok dc =>
        obtain ⟨d, c⟩ := dc
        rw [hg, pyBindOk] at hsc
        dsimp only at hsc
        cases hs : q.solve d with
        | error e => rw [hs] at hsc; simp at hsc
        | ok a =>
          rw [hs, pyBindOk] at hsc
          cases hc : q.check a c with
          | error e => rw [hc] at hsc; simp at hsc
          | ok p =>
            obtain ⟨s, h⟩ := p
            rw [hc, pyBindOk] at hsc
            dsimp only at hsc
            injection hsc with hsc
            exact ⟨d, c, a, s, h, rfl, hs, hc, hsc⟩
    · rintro ⟨d, c, a, s, h, hg, hs, hc, hq⟩
      unfold DatasetQuiz.self_check
      rw [hg, pyBindOk]
      dsimp only
      rw [hs, pyBindOk, hc, pyBindOk]
      dsimp only
      rw [hq]
      rfl
  · intro q
    constructor
    · intro hsc
      unfold CodeQuiz.self_check at hsc
      cases hg : q.generate with
      | error e => rw [hg] at hsc; simp at hsc
      | ok cs =>
        rw [hg, pyBindOk] at hsc
        exact ⟨cs, rfl, (allCorrect_ok_true_iff q.solve q.check cs).mp hsc⟩
    · rintro ⟨cs, hg, hall⟩
      unfold CodeQuiz.self_check
      rw [hg, pyBindOk]
      exact (allCorrect_ok_true_iff q.solve q.check cs).mpr hall

/-- Witness for C5: a quiz answering `'42'` and scoring it 1 self-checks
true. -/
theorem C5_self_check_criteria_witness :
    DatasetQuiz.self_check ⟨.ok (.dict [], .str ""), fun _ => .ok (.str "42"),
      fun _ _ => .ok (.num 1, .str "")⟩ = .ok true :=
  (C5_self_check_criteria.1 ⟨.ok (.dict [], .str ""), fun _ => .ok (.str "42"),
      fun _ _ => .ok (.num 1, .str "")⟩ true).mpr
    ⟨.dict [], .str "", .str "42", .num 1, .str "", rfl, rfl, rfl, rfl⟩

/-- A signature spec whose function has the expected parameter count is
skipped. -/
theorem check_signatures_cons_ok {name : String} {f : RawFun} {n : Nat}
    {rest : List (String × RawFun × Nat)} (h : f.params.length = n) :
    check_signatures ((name, f, n) :: rest) = check_signatures rest := by
  conv_lhs => unfold check_signatures
  rw [if_neg (not_not_intro h)]

/-- A signature spec whose function has the wrong parameter count fails with
the message naming the function, the expected count and the actual
parameter names. -/
theorem check_signatures_cons_fail {name : String} {f : RawFun} {n : Nat}
    {rest : List (String × RawFun × Nat)} (h : f.params.length ≠ n) :
    check_signatures ((name, f, n) :: rest) =
      .error (.systemExit
        ("Expected `" ++ name ++ "` with " ++ toString n ++ " arguments, got " ++
         (if f.params.isEmpty then "none" else String.intercalate ", " f.params) ++ ".")) := by
  unfold check_signatures
  rw [if_pos h]
  rfl

/-- `DatasetQuiz.init` without `generate`: failing the `solve/0` check. -/
theorem dataset_init_fail_solve {ser : Serializer} {m : QuizModule}
    (hm : m.generate = Option.none) (h : m.solve.params.length ≠ 0) :
    DatasetQuiz.init ser m =
      .error (.systemExit
        ("Expected `solve` with " ++ toString (0 : Nat) ++ " arguments, got " ++
         (if m.solve.params.isEmpty then "none"
          else String.intercalate ", " m.solve.params) ++ ".")) := by
  unfold DatasetQuiz.init
  rw [hm]
  dsimp only
  rw [check_signatures_cons_fail h, pyBindError]
  rfl

/-- `DatasetQuiz.init` without `generate`: failing the `check/1` check. -/
theorem dataset_init_fail_check {ser : Serializer} {m : QuizModule}
    (hm : m.generate = Option.none) (h0 : m.solve.params.length = 0)
    (h1 : m.check.params.length ≠ 1) :
    DatasetQuiz.init ser m =
      .error (.systemExit
        ("Expected `check` with " ++ toString (1 : Nat) ++ " arguments, got " ++
         (if m.check.params.isEmpty then "none"
          else String.intercalate ", " m.check.params) ++ ".")) := by
  unfold DatasetQuiz.init
  rw [hm]
  dsimp only
  rw [check_signatures_cons_ok h0, check_signatures_cons_fail h1, pyBindError]
  rfl

/-- `DatasetQuiz.init` without `generate`: both signature checks pass and the
synthesized contract is wrapped. -/
theorem dataset_init_no_generate_ok {ser : Serializer} {m : QuizModule}
    (hm : m.generate = Option.none) (h0 : m.solve.params.length = 0)
    (h1 : m.check.params.length = 1) :
    DatasetQuiz.init ser m =
      .ok (BaseQuiz.make ser ⟨[], fun _ => .ok (.tuple [.dict [], .str ""])⟩
        ⟨["dataset"], fun _ => m.solve.call []⟩
        ⟨["reply", "clue"], fun args => m.check.call (args.take 1)⟩) := by
  unfold DatasetQuiz.init
  rw [hm]
  dsimp only
  rw [check_signatures_cons_ok h0, check_signatures_cons_ok h1]
  rfl

/-- A wrapped solve whose raw function returns normally pipes the result
through answer cleaning. -/
theorem wrap_solve_ret {solve : RawFun} {d a : PyVal}
    (h : solve.call [unwrapFileDataset d] = .ok a) :
    BaseQuiz.wrap_solve solve d = BaseQuiz.clean_answer a := by
  unfold BaseQuiz.wrap_solve
  rw [call_user_code_ret h, pyBindOk]

/-- A wrapped solve whose raw function raises is harness-fatal. -/
theorem wrap_solve_fault {solve : RawFun} {d : PyVal} {e : PyExc}
    (h : solve.call [unwrapFileDataset d] = .error e) :
    BaseQuiz.wrap_solve solve d = .error (.systemExit "Quiz failed with exception!") := by
  unfold BaseQuiz.wrap_solve
  rw [call_user_code_exc h, pyBindError]

/-- A wrapped check whose raw function raises is harness-fatal. -/
theorem wrap_check_fault {check : RawFun} {reply clue : PyVal} {e : PyExc}
    (h : check.call [reply, clue] = .error e) :
    BaseQuiz.wrap_check check reply clue =
      .error (.systemExit "Quiz failed with exception!") := by
  unfold BaseQuiz.wrap_check
  rw [call_user_code_exc h, pyBindError]

/-- A wrapped check whose raw function returns a non-tuple treats it as the
bare score with an empty hint. -/
theorem wrap_check_nontuple {check : RawFun} {reply clue v : PyVal}
    (hc : check.call [reply, clue] = .ok v) (hv : ∀ xs, v ≠ .tuple xs) :
    BaseQuiz.wrap_check check reply clue =
      (do
        let score_value ← BaseQuiz.clean_score v
        let hint ← BaseQuiz.clean_hint (.str "")
        pure (score_value, hint)) := by
  unfold BaseQuiz.wrap_check
  rw [call_user_code_ret hc, pyBindOk]
  match v, hv with
  | .none, _ => rfl
  | .bool b, _ => rfl
  | .num q, _ => rfl
  | .str s, _ => rfl
  | .bytes s, _ => rfl
  | .tuple xs, hv => exact absurd rfl (hv xs)
  | .list xs, _ => rfl
  | .dict entries, _ => rfl

/-- C3: for a DatasetQuiz without `generate`, construction succeeds exactly
when the raw solve declares zero parameters and the raw check one, failing
harness-fatally otherwise with a message naming the function, the expected
count and the actual parameter names; on success the effective generate
returns `(\x7b\x7d, '')`, the effective solve ignores its dataset and calls
the raw solve with no arguments, and the effective check ignores the clue
and calls the raw check on the reply alone. -/
theorem C3_dataset_no_generate :
    ∀ (ser : Serializer) (m : QuizModule), m.generate = Option.none →
      ((∃ q, DatasetQuiz.init ser m = .ok q) ↔
        m.solve.params.length = 0 ∧ m.check.params.length = 1) ∧
      (m.solve.params.length ≠ 0 →
        DatasetQuiz.init ser m =
          .error (.systemExit
            ("Expected `solve` with " ++ toString (0 : Nat) ++ " arguments, got " ++
             (if m.solve.params.isEmpty then "none"
              else String.intercalate ", " m.solve.params) ++ "."))) ∧
      (m.solve.params.length = 0 → m.check.params.length ≠ 1 →
        DatasetQuiz.init ser m =
          .error (.systemExit
            ("Expected `check` with " ++ toString (1 : Nat) ++ " arguments, got " ++
             (if m.check.params.isEmpty then "none"
              else String.intercalate ", " m.check.params) ++ "."))) ∧
      (∀ q, DatasetQuiz.init ser m = .ok q →
        (ser.encode (.str "") >>= ser.decode = some (.str "") →
           q.generate = .ok (.dict [], .str "")) ∧
        (∀ d1 d2, q.solve d1 = q.solve d2) ∧
        (∀ d a, m.solve.call [] = .ok a → q.solve d = BaseQuiz.clean_answer a) ∧
        (∀ d e, m.solve.call [] = .error e →
           q.solve d = .error (.systemExit "Quiz failed with exception!")) ∧
        (∀ r c1 c2, q.check r c1 = q.check r c2) ∧
        (∀ r c e, m.check.call [r] = .error e →
           q.check r c = .error (.systemExit "Quiz failed with exception!")) ∧
        (∀ r c v, m.check.call [r] = .ok v → (∀ xs, v ≠ .tuple xs) →
           q.check r c =
             (do
               let score_value ← BaseQuiz.clean_score v
               let hint ← BaseQuiz.clean_hint (.str "")
               pure (score_value, hint)))) := by
  intro ser m hm
  refine ⟨?_, fun h => dataset_init_fail_solve hm h,
    fun h0 h1 => dataset_init_fail_check hm h0 h1, ?_⟩
  · constructor
    · rintro ⟨q, hq⟩
      by_cases h0 : m.solve.params.length = 0
      · by_cases h1 : m.check.params.length = 1
        · exact ⟨h0, h1⟩
        · rw [dataset_init_fail_check hm h0 h1] at hq; simp at hq
      · rw [dataset_init_fail_solve hm h0] at hq; simp at hq
    · rintro ⟨h0, h1⟩
      exact ⟨_, dataset_init_no_generate_ok hm h0 h1⟩
  · intro q hq
    have h0 : m.solve.params.length = 0 := by
      by_contra h0
      rw [dataset_init_fail_solve hm h0] at hq; simp at hq
    have h1 : m.check.params.length = 1 := by
      by_contra h1
      rw [dataset_init_fail_check hm h0 h1] at hq; simp at hq
    rw [dataset_init_no_generate_ok hm h0 h1] at hq
    injection hq with hq
    subst hq
    refine ⟨?_, fun d1 d2 => rfl, ?_, ?_, fun r c1 c2 => rfl, ?_, ?_⟩
    · intro hrt
      have hclue : BaseQuiz.clean_clue ser (.str "") = .ok (.str "") := by
        unfold BaseQuiz.clean_clue
        rw [hrt]
      show BaseQuiz.clean_clue ser (.str "") >>=
        (fun clue => pure (PyVal.dict [], clue)) = .ok (.dict [], .str "")
      rw [hclue, pyBindOk, pyPureEq]
    · intro d a hsa
      exact wrap_solve_ret hsa
    · intro d e hse
      exact wrap_solve_fault hse
    · intro r c e hce
      exact wrap_check_fault hce
    · intro r c v hcv hv
      exact wrap_check_nontuple hcv hv

/-- Witness for C3: a module whose solve declares one parameter is rejected
with the message naming `solve`, the expected count 0 and the parameter. -/
theorem C3_dataset_no_generate_witness :
    DatasetQuiz.init ⟨some, some⟩
      ⟨Option.none, ⟨["dataset"], fun _ => .ok (.str "42")⟩,
       ⟨["reply"], fun _ => .ok (.num 1)⟩, Option.none⟩ =
      .error (.systemExit
        ("Expected `solve` with " ++ toString (0 : Nat) ++ " arguments, got " ++
         (if (["dataset"] : List String).isEmpty then "none"
          else String.intercalate ", " ["dataset"]) ++ ".")) :=
  ((C3_dataset_no_generate ⟨some, some⟩
      ⟨Option.none, ⟨["dataset"], fun _ => .ok (.str "42")⟩,
       ⟨["reply"], fun _ => .ok (.num 1)⟩, Option.none⟩ rfl).2.1 (by decide))

/-- A wrapped generate whose raw function raises is harness-fatal. -/
theorem wrap_generate_fault {ser : Serializer} {gen : RawFun}
    {solveW : PyVal → Except PyExc PyVal} {e : PyExc} (h : gen.call [] = .error e) :
    BaseQuiz.wrap_generate ser gen solveW =
      .error (.systemExit "Quiz failed with exception!") := by
  unfold BaseQuiz.wrap_generate
  rw [call_user_code_exc h, pyBindError]

/-- C1: a fault raised by a user function invoked during the per-case passes
(`testSamples`, `testSolve`) surfaces through `call_user_code` as a
`SystemExit` that the external framework's exception handling records as a
reported test failure; the same fault in a harness-fatal context — a
wrapped generate/solve/check run outside the framework — terminates the
process with status -1 after printing the fatal message. -/
theorem C1_fault_channels :
    (∀ (check : RawFun) (d c r : PyVal) (rest : List PyVal) (e : PyExc),
       check.call [r, c] = .error e →
       runUnderFramework (QuizModuleTest.testSamples (BaseQuiz.wrap_check check)
         (.tuple [d, c, r] :: rest)) =
         .reportedFailure (.systemExit "Quiz failed with exception!")) ∧
    (∀ (solve : RawFun) (checkW : PyVal → PyVal → Except PyExc (PyVal × PyVal))
       (d c r : PyVal) (rest : List PyVal) (e : PyExc),
       solve.call [unwrapFileDataset d] = .error e →
       runUnderFramework (QuizModuleTest.testSolve (BaseQuiz.wrap_solve solve) checkW
         (.tuple [d, c, r] :: rest)) =
         .reportedFailure (.systemExit "Quiz failed with exception!")) ∧
    (∀ (solve : RawFun) (d : PyVal) (e : PyExc),
       solve.call [unwrapFileDataset d] = .error e →
       runTopLevel (BaseQuiz.wrap_solve solve d) =
         .exited (-1) "Quiz failed with exception!") ∧
    (∀ (check : RawFun) (r c : PyVal) (e : PyExc),
       check.call [r, c] = .error e →
       runTopLevel (BaseQuiz.wrap_check check r c) =
         .exited (-1) "Quiz failed with exception!") ∧
    (∀ (ser : Serializer) (gen : RawFun) (solveW : PyVal → Except PyExc PyVal) (e : PyExc),
       gen.call [] = .error e →
       runTopLevel (BaseQuiz.wrap_generate ser gen solveW) =
         .exited (-1) "Quiz failed with exception!") := by
  refine ⟨?_, ?_, ?_, ?_, ?_⟩
  · intro check d c r rest e h
    unfold QuizModuleTest.testSamples
    rw [wrap_check_fault h, pyBindError]
    rfl
  · intro solve checkW d c r rest e h
    unfold QuizModuleTest.testSolve
    rw [wrap_solve_fault h, pyBindError]
    rfl
  · intro solve d e h
    rw [wrap_solve_fault h]
    rfl
  · intro check r c e h
    rw [wrap_check_fault h]
    rfl
  · intro ser gen solveW e h
    rw [wrap_generate_fault h]
    rfl

/-- Witness for C1: a raw check that raises makes `testSamples` report a
failure through the framework, while the same faulting solve at top level
exits the process with status -1. -/
theorem C1_fault_channels_witness :
    runUnderFramework (QuizModuleTest.testSamples
      (BaseQuiz.wrap_check ⟨["reply", "clue"], fun _ => .error (.userError "boom")⟩)
      [.tuple [.str "d", .str "c", .str "r"]]) =
      .reportedFailure (.systemExit "Quiz failed with exception!") ∧
    runTopLevel (BaseQuiz.wrap_solve ⟨["dataset"], fun _ => .error (.userError "boom")⟩
      (.str "d")) = .exited (-1) "Quiz failed with exception!" :=
  ⟨C1_fault_channels.1 ⟨["reply", "clue"], fun _ => .error (.userError "boom")⟩
     (.str "d") (.str "c") (.str "r") [] (.userError "boom") rfl,
   C1_fault_channels.2.2.1 ⟨["dataset"], fun _ => .error (.userError "boom")⟩
     (.str "d") (.userError "boom") rfl⟩
